import Mathlib

/-
Shallow embedding of the cerata node/edge graph model
(src/codegen/cerata/src/cerata/node.cc).

Pointers are modelled by numeric identities: a `Node*` is a `NodeRef`
(`Nat`), a `shared_ptr<Type>` handle is a `TypeRef`, and an `Edge`
object carries its own identity `id` so that the pointer comparisons of
the source (`edge->src() == this`, `Contains(outputs_, edge)`,
`i->get() == edge`) become comparisons of identities.  A null pointer or
a disengaged `std::optional` is `none`.  Member functions that mutate a
node become functions from the old edge-storage state to the pair of the
returned value and the new state.  The C++ `throw` in
`Literal::AddSource` is modelled with `Except`.
-/

namespace Cerata

/-- Identity of a node object, modelling a `Node*` pointer value. -/
abbrev NodeRef := Nat

/-- Identity of a type handle, modelling a `std::shared_ptr<Type>`.
The type engine itself is an external collaborator; only identity of the
handle matters in this file. -/
abbrev TypeRef := Nat

/-- An edge object (`cerata::Edge`): its own identity plus the optional
source and destination node pointers exposed by `src()` and `dst()`. -/
structure Edge where
  id : Nat
  src : Option NodeRef
  dst : Option NodeRef
  deriving DecidableEq, Repr

/-- Membership test `Contains(outputs_, edge)` on the `outputs_` deque of
`shared_ptr<Edge>`: comparison is by object identity. -/
def Contains (outputs : List Edge) (edge : Edge) : Bool :=
  outputs.any (fun e => e.id == edge.id)

/-- `MultiOutputNode::AddEdge` (node.cc lines 50-65): succeed exactly when
the edge has a source, that source is this node, and the edge is not
already contained in `outputs_`; on success push the edge onto
`outputs_`.  Returns the `bool` result and the new `outputs_`. -/
def MultiOutputNode.AddEdge (self : NodeRef) (outputs : List Edge) (edge : Edge) :
    Bool × List Edge :=
  match edge.src with
  | some s =>
    if s = self then
      if Contains outputs edge then (false, outputs)
      else (true, outputs ++ [edge])
    else (false, outputs)
  | none => (false, outputs)

/-- Erase the first element of `outputs_` that is the given edge object
(the loop body of `MultiOutputNode::RemoveEdge`, comparing
`i->get() == edge` by identity). -/
def eraseFirstById : List Edge → Edge → Bool × List Edge
  | [], _ => (false, [])
  | e :: rest, edge =>
    if e.id == edge.id then (true, rest)
    else
      let r := eraseFirstById rest edge
      (r.1, e :: r.2)

/-- `MultiOutputNode::RemoveEdge` (node.cc lines 67-80): only when the edge
has a source and that source is this node, erase its first occurrence
from `outputs_`. -/
def MultiOutputNode.RemoveEdge (self : NodeRef) (outputs : List Edge) (edge : Edge) :
    Bool × List Edge :=
  match edge.src with
  | some s =>
    if s = self then eraseFirstById outputs edge
    else (false, outputs)
  | none => (false, outputs)

/-- Edge storage of a `NormalNode`: the inherited `outputs_` deque plus the
single `input_` shared pointer (`none` models the null pointer). -/
structure NormalNode where
  outputs : List Edge
  input_ : Option Edge
  deriving DecidableEq, Repr

/-- `NormalNode::input()` (node.cc lines 86-91): the held input edge when
`input_` is non-null. -/
def NormalNode.input (n : NormalNode) : Option Edge :=
  n.input_

/-- `NormalNode::sources()` (node.cc lines 93-99): the singleton sequence
holding the input edge when present, else the empty sequence. -/
def NormalNode.sources (n : NormalNode) : List Edge :=
  match n.input_ with
  | some e => [e]
  | none => []

/-- `NormalNode::AddEdge` (node.cc lines 101-117): first attempt to add the
edge as an output via `MultiOutputNode::AddEdge`; only if that fails,
and the edge has a destination and that destination is this node, set
`input_` to the edge and succeed. -/
def NormalNode.AddEdge (self : NodeRef) (n : NormalNode) (edge : Edge) :
    Bool × NormalNode :=
  let res := MultiOutputNode.AddEdge self n.outputs edge
  let n1 : NormalNode := { n with outputs := res.2 }
  if res.1 then (true, n1)
  else
    match edge.dst with
    | some d =>
      if d = self then (true, { n1 with input_ := some edge })
      else (false, n1)
    | none => (false, n1)

/-- `NormalNode::RemoveEdge` (node.cc lines 119-130): first try the
multi-output removal; if that fails and the edge has a destination which
is this node and `input_` holds this very edge object, clear `input_`. -/
def NormalNode.RemoveEdge (self : NodeRef) (n : NormalNode) (edge : Edge) :
    Bool × NormalNode :=
  let res := MultiOutputNode.RemoveEdge self n.outputs edge
  let n1 : NormalNode := { n with outputs := res.2 }
  if res.1 then (true, n1)
  else
    match edge.dst with
    | some d =>
      if d = self then
        match n1.input_ with
        | some e => if e.id = edge.id then (true, { n1 with input_ := none }) else (false, n1)
        | none => (false, n1)
      else (false, n1)
    | none => (false, n1)

/-- Discriminant `Literal::StorageType`. -/
inductive StorageType
  | BOOL
  | INT
  | STRING
  deriving DecidableEq, Repr

/-- A `Literal` node: name, type handle, the inherited `outputs_` deque of
`MultiOutputNode`, the storage-kind discriminant fixed at construction,
and the three value members.  The constructors of node.cc initialize
only the member matching the discriminant; the members not selected by
the discriminant are modelled with the default values `false`, `0` and
the empty string (they are never read through the matching accessor). -/
structure Literal where
  name : String
  type_ : TypeRef
  outputs : List Edge
  storage_type_ : StorageType
  bool_val_ : Bool
  int_val_ : Int
  str_val_ : String
  deriving DecidableEq, Repr

/-- `Literal::ToString` (node.cc lines 136-144).  The BOOL branch calls
`std::to_string(bool_val_)`, which has no `bool` overload: the `bool`
promotes to `int`, so a boolean literal renders as "1" or "0". -/
def Literal.ToString (l : Literal) : String :=
  if l.storage_type_ = StorageType.BOOL then
    toString (if l.bool_val_ then (1 : Int) else 0)
  else if l.storage_type_ = StorageType.STRING then
    l.str_val_
  else
    toString l.int_val_

/-- The `Literal` constructor taking a `std::string` value (node.cc
lines 146-149), reached by `Literal::Make(name, type, string)`. -/
def Literal.MakeOfString (name : String) (type : TypeRef) (value : String) : Literal :=
  { name := name, type_ := type, outputs := [],
    storage_type_ := StorageType.STRING,
    bool_val_ := false, int_val_ := 0, str_val_ := value }

/-- The `Literal` constructor taking an `int` value (node.cc
lines 150-153), reached by `Literal::Make(name, type, int)`. -/
def Literal.MakeOfInt (name : String) (type : TypeRef) (value : Int) : Literal :=
  { name := name, type_ := type, outputs := [],
    storage_type_ := StorageType.INT,
    bool_val_ := false, int_val_ := value, str_val_ := "" }

/-- The `Literal` constructor taking a `bool` value (node.cc
lines 154-157), reached by `Literal::Make(name, type, bool)`. -/
def Literal.MakeOfBool (name : String) (type : TypeRef) (value : Bool) : Literal :=
  { name := name, type_ := type, outputs := [],
    storage_type_ := StorageType.BOOL,
    bool_val_ := value, int_val_ := 0, str_val_ := "" }

/-- `Literal::Copy` (node.cc lines 180-187): a new literal with the same
name, type handle, discriminant and value members; the fresh node holds
no edges. -/
def Literal.Copy (l : Literal) : Literal :=
  { name := l.name, type_ := l.type_, outputs := [],
    storage_type_ := l.storage_type_,
    bool_val_ := l.bool_val_, int_val_ := l.int_val_, str_val_ := l.str_val_ }

/-- `Literal::AddSource` (node.cc lines 195-197): always throws
`std::runtime_error("Cannot drive a literal node.")`; the throw is
modelled as `Except.error`, never producing an edge. -/
def Literal.AddSource (l : Literal) (source : NodeRef) : Except String Edge :=
  Except.error "Cannot drive a literal node."

/-- Modelled from the spec: the opaque shared `Type` handle returned by
`boolean()` of the external type engine (type code is not under src/;
the spec treats type handles as opaque identities). -/
def boolean : TypeRef := 0

/-- `bool_true()` (node.cc lines 199-202): the process-wide boolean-true
singleton, `Literal::Make("bool_true", boolean(), true)`. -/
def bool_true : Literal :=
  Literal.MakeOfBool "bool_true" boolean true

/-- `bool_false()` (node.cc lines 204-207): the process-wide boolean-false
singleton, `Literal::Make("bool_true", boolean(), false)` - note the
name in the source is "bool_true". -/
def bool_false : Literal :=
  Literal.MakeOfBool "bool_true" boolean false

/-- Direction `Term::Dir`. -/
inductive Dir
  | IN
  | OUT
  | NONE
  deriving DecidableEq, Repr

/-- `Term::Invert` (node.cc lines 296-300). -/
def Term.Invert (dir : Dir) : Dir :=
  if dir = Dir.IN then Dir.OUT
  else if dir = Dir.OUT then Dir.IN
  else Dir.NONE

/-- `Term::str` (node.cc lines 288-294). -/
def Term.str (dir : Dir) : String :=
  match dir with
  | Dir.IN => "in"
  | Dir.OUT => "out"
  | Dir.NONE => "none"

/-- A `Port` node: name, type handle, direction, and the inherited
`NormalNode` edge storage. -/
structure Port where
  name : String
  type_ : TypeRef
  dir_ : Dir
  node : NormalNode
  deriving DecidableEq, Repr

/-- The `Port` constructor (node.cc lines 234-238), reached by
`Port::Make`: a fresh port holds no edges. -/
def Port.Make (name : String) (type : TypeRef) (dir : Dir) : Port :=
  { name := name, type_ := type, dir_ := dir,
    node := { outputs := [], input_ := none } }

/-- `Port::Copy` (node.cc lines 228-232): a new port with the same name,
type handle and direction, built by the fresh-port constructor. -/
def Port.Copy (p : Port) : Port :=
  Port.Make p.name p.type_ p.dir_

/-- `Port::InvertDirection` (node.cc lines 240-243). -/
def Port.InvertDirection (p : Port) : Port :=
  { p with dir_ := Term.Invert p.dir_ }

/-- A `Signal` node: name, type handle, and the inherited `NormalNode`
edge storage. -/
structure Signal where
  name : String
  type_ : TypeRef
  node : NormalNode
  deriving DecidableEq, Repr

/-- The `Signal` constructor (node.cc lines 270-271), reached by
`Signal::Make`: a fresh signal holds no edges. -/
def Signal.Make (name : String) (type : TypeRef) : Signal :=
  { name := name, type_ := type, node := { outputs := [], input_ := none } }

/-- `Signal::Copy` (node.cc lines 283-286). -/
def Signal.Copy (s : Signal) : Signal :=
  Signal.Make s.name s.type_

/-- A `Parameter` node: name, type handle, the optional default-literal
reference (a `shared_ptr<Literal>` modelled by its node identity), and
the inherited `NormalNode` edge storage. -/
structure Parameter where
  name : String
  type_ : TypeRef
  default_value_ : Option NodeRef
  node : NormalNode
  deriving DecidableEq, Repr

/-- The `Parameter` constructor (node.cc lines 256-259), reached by
`Parameter::Make`: a fresh parameter holds no edges. -/
def Parameter.Make (name : String) (type : TypeRef) (default_value : Option NodeRef) :
    Parameter :=
  { name := name, type_ := type, default_value_ := default_value,
    node := { outputs := [], input_ := none } }

/-- `Parameter::Copy` (node.cc lines 245-247): `Make` with the same name,
type handle and default-literal reference. -/
def Parameter.Copy (p : Parameter) : Parameter :=
  Parameter.Make p.name p.type_ p.default_value_

/-- `Parameter::val` (node.cc lines 261-268): the source pointer of the
input edge when an input edge exists, else the default literal when
configured, else `std::nullopt`.  The outer `Option` models the
returned `std::optional`, the inner one the nullability of the
`Node*` inside it. -/
def Parameter.val (p : Parameter) : Option (Option NodeRef) :=
  match p.node.input with
  | some e => some e.src
  | none =>
    match p.default_value_ with
    | some d => some (some d)
    | none => none

/-- Modelled from the spec: the canonical textual form of a boolean value,
"true" or "false" - the rendering that the specification asserts for
boolean literals. -/
def canonicalTextualBool (b : Bool) : String :=
  if b then "true" else "false"

/-- Concrete edge already accepted as input by the node of the C1 scenario:
it comes from node 2 into node 0. -/
def edgeC1a : Edge :=
  { id := 1, src := some 2, dst := some 0 }

/-- Concrete second inbound edge of the C1 scenario: it comes from node 4
into node 0, while node 0 already holds `edgeC1a`. -/
def edgeC1b : Edge :=
  { id := 3, src := some 4, dst := some 0 }

/-- Concrete edge storage of node 0 in the C1 scenario: one accepted
inbound edge, no outputs. -/
def nodeC1 : NormalNode :=
  { outputs := [], input_ := some edgeC1a }

/-- Concrete edge already accepted as input by node 0 in the C2 scenario. -/
def edgeC2a : Edge :=
  { id := 11, src := some 12, dst := some 0 }

/-- Concrete second inbound edge of the C2 scenario, from node 14 into
node 0. -/
def edgeC2b : Edge :=
  { id := 13, src := some 14, dst := some 0 }

/-- Concrete edge storage of node 0 in the C2 scenario. -/
def nodeC2 : NormalNode :=
  { outputs := [], input_ := some edgeC2a }

/-- Concrete parameter of the C4 scenario: it has both an inbound edge
(whose source is node 5) and a default literal (node 7). -/
def paramC4 : Parameter :=
  { name := "par", type_ := 0, default_value_ := some 7,
    node := { outputs := [], input_ := some { id := 21, src := some 5, dst := some 9 } } }

/-- Concrete edge of the C5 scenario: sourced at node 0, into node 2. -/
def edgeC5 : Edge :=
  { id := 31, src := some 0, dst := some 2 }

/-- Concrete edge of the C6 scenario: it has neither source nor
destination, so every node rejects it. -/
def edgeC6 : Edge :=
  { id := 41, src := none, dst := none }

/-- Concrete edge storage of the C6 scenario: one output edge and one
input edge already held. -/
def nodeC6 : NormalNode :=
  { outputs := [{ id := 42, src := some 0, dst := some 3 }],
    input_ := some { id := 43, src := some 4, dst := some 0 } }

/-! Helper lemmas shared by the claim theorems. -/

/-- Outcome of `MultiOutputNode::AddEdge` when the edge has no source. -/
theorem mo_add_noSrc (self : NodeRef) (outputs : List Edge) (edge : Edge)
    (h : edge.src = none) :
    MultiOutputNode.AddEdge self outputs edge = (false, outputs) := by
  simp [MultiOutputNode.AddEdge, h]

/-- Outcome of `MultiOutputNode::AddEdge` when the source of the edge is
another node. -/
theorem mo_add_wrongSrc (self : NodeRef) (outputs : List Edge) (edge : Edge)
    (h : edge.src ≠ some self) :
    MultiOutputNode.AddEdge self outputs edge = (false, outputs) := by
  unfold MultiOutputNode.AddEdge
  cases hs : edge.src with
  | none => rfl
  | some s =>
    have hne : s ≠ self := by
      intro hcontra
      exact h (by simp [hs, hcontra])
    simp [hne]

/-- Outcome of `MultiOutputNode::AddEdge` when the edge is already
contained in the output set. -/
theorem mo_add_dup (self : NodeRef) (outputs : List Edge) (edge : Edge)
    (h : edge.src = some self) (hc : Contains outputs edge = true) :
    MultiOutputNode.AddEdge self outputs edge = (false, outputs) := by
  simp [MultiOutputNode.AddEdge, h, hc]

/-- Outcome of `MultiOutputNode::AddEdge` in the accepting case. -/
theorem mo_add_ok (self : NodeRef) (outputs : List Edge) (edge : Edge)
    (h : edge.src = some self) (hc : Contains outputs edge = false) :
    MultiOutputNode.AddEdge self outputs edge = (true, outputs ++ [edge]) := by
  simp [MultiOutputNode.AddEdge, h, hc]

/-- A failing `MultiOutputNode::AddEdge` leaves the output set unchanged. -/
theorem mo_add_fail_unchanged (self : NodeRef) (outputs : List Edge) (edge : Edge)
    (h : (MultiOutputNode.AddEdge self outputs edge).1 = false) :
    (MultiOutputNode.AddEdge self outputs edge).2 = outputs := by
  by_cases hs : edge.src = some self
  · cases hc : Contains outputs edge with
    | true => rw [mo_add_dup self outputs edge hs hc]
    | false => rw [mo_add_ok self outputs edge hs hc] at h ⊢; cases h
  · rw [mo_add_wrongSrc self outputs edge hs]

/-- `NormalNode::AddEdge` when the output attempt succeeds: the result is
success with the updated output set and an untouched input. -/
theorem nn_add_out (self : NodeRef) (n : NormalNode) (edge : Edge)
    (h : (MultiOutputNode.AddEdge self n.outputs edge).1 = true) :
    NormalNode.AddEdge self n edge =
      (true, { n with outputs := (MultiOutputNode.AddEdge self n.outputs edge).2 }) := by
  simp [NormalNode.AddEdge, h]

/-- `NormalNode::AddEdge` when the output attempt fails and the edge
destination is this node: the result is success with `input_` set to the
edge, whatever it held before. -/
theorem nn_add_in (self : NodeRef) (n : NormalNode) (edge : Edge)
    (h : (MultiOutputNode.AddEdge self n.outputs edge).1 = false)
    (hdst : edge.dst = some self) :
    NormalNode.AddEdge self n edge = (true, { n with input_ := some edge }) := by
  have hres : MultiOutputNode.AddEdge self n.outputs edge = (false, n.outputs) :=
    Prod.ext h (mo_add_fail_unchanged self n.outputs edge h)
  simp [NormalNode.AddEdge, hres, hdst]

/-- `NormalNode::AddEdge` when the output attempt fails and the edge has no
destination: failure, node unchanged. -/
theorem nn_add_noDst (self : NodeRef) (n : NormalNode) (edge : Edge)
    (h : (MultiOutputNode.AddEdge self n.outputs edge).1 = false)
    (hdst : edge.dst = none) :
    NormalNode.AddEdge self n edge = (false, n) := by
  have hres : MultiOutputNode.AddEdge self n.outputs edge = (false, n.outputs) :=
    Prod.ext h (mo_add_fail_unchanged self n.outputs edge h)
  simp [NormalNode.AddEdge, hres, hdst]

/-- `NormalNode::AddEdge` when the output attempt fails and the destination
of the edge is another node: failure, node unchanged. -/
theorem nn_add_wrongDst (self : NodeRef) (n : NormalNode) (edge : Edge) (d : NodeRef)
    (h : (MultiOutputNode.AddEdge self n.outputs edge).1 = false)
    (hdst : edge.dst = some d) (hne : d ≠ self) :
    NormalNode.AddEdge self n edge = (false, n) := by
  have hres : MultiOutputNode.AddEdge self n.outputs edge = (false, n.outputs) :=
    Prod.ext h (mo_add_fail_unchanged self n.outputs edge h)
  simp [NormalNode.AddEdge, hres, hdst, hne]

/-! Claim theorems. -/

/-- C3: for every Literal node and every candidate source node, AddSource
never succeeds: it always fails with the "Cannot drive a literal node."
error, so a Literal is never the destination of an edge obtained from
AddSource. -/
theorem C3_literal_addSource_always_fails (l : Literal) (source : NodeRef) :
    Literal.AddSource l source = Except.error "Cannot drive a literal node." ∧
    ∀ e : Edge, Literal.AddSource l source ≠ Except.ok e :=
  ⟨rfl, fun _ h => nomatch h⟩

/-- C7: Copy produces a node carrying over no edges - the sources and the
output set of the copy are empty whatever the original held - while
preserving the name and the type reference of the original, the
direction for a Port, and the default-literal reference for a
Parameter. -/
theorem C7_copy_carries_no_edges (p : Port) (pa : Parameter) (s : Signal) (l : Literal) :
    (NormalNode.sources (Port.Copy p).node = [] ∧ (Port.Copy p).node.outputs = [] ∧
      (Port.Copy p).name = p.name ∧ (Port.Copy p).type_ = p.type_ ∧
      (Port.Copy p).dir_ = p.dir_) ∧
    (NormalNode.sources (Parameter.Copy pa).node = [] ∧
      (Parameter.Copy pa).node.outputs = [] ∧
      (Parameter.Copy pa).name = pa.name ∧ (Parameter.Copy pa).type_ = pa.type_ ∧
      (Parameter.Copy pa).default_value_ = pa.default_value_) ∧
    (NormalNode.sources (Signal.Copy s).node = [] ∧ (Signal.Copy s).node.outputs = [] ∧
      (Signal.Copy s).name = s.name ∧ (Signal.Copy s).type_ = s.type_) ∧
    ((Literal.Copy l).outputs = [] ∧ (Literal.Copy l).name = l.name ∧
      (Literal.Copy l).type_ = l.type_) :=
  ⟨⟨rfl, rfl, rfl, rfl, rfl⟩, ⟨rfl, rfl, rfl, rfl, rfl⟩,
    ⟨rfl, rfl, rfl, rfl⟩, ⟨rfl, rfl, rfl⟩⟩

/-- C8 counterexample: the boolean literal holding `true` does not render
as the canonical textual boolean "true"; `Literal::ToString` calls
`std::to_string` on the `bool` member, which promotes it to `int`, so
the rendering is "1". -/
theorem C8_counterexample :
    (Literal.MakeOfBool "b" 0 true).ToString = "1" ∧
    (Literal.MakeOfBool "b" 0 true).ToString ≠ canonicalTextualBool true :=
  ⟨rfl, fun h => nomatch h⟩

/-- C8 (amended): ToString renders according to the storage-kind
discriminant fixed at construction: a boolean literal renders as the
decimal form of the bool promoted to int ("1" for true, "0" for false),
an integer literal with value 42 renders as "42", and a string literal
with value "foo" renders verbatim as "foo". -/
theorem C8_toString_by_discriminant (name : String) (t : TypeRef) :
    (∀ b : Bool, (Literal.MakeOfBool name t b).ToString = if b then "1" else "0") ∧
    (Literal.MakeOfInt name t 42).ToString = "42" ∧
    (Literal.MakeOfString name t "foo").ToString = "foo" := by
  refine ⟨fun b => ?_, rfl, rfl⟩
  cases b <;> rfl

/-- C9: direction inversion is involutive on `IN` and `OUT` and fixes
`NONE`: Invert maps `IN` to `OUT`, `OUT` to `IN`, `NONE` to `NONE`. -/
theorem C9_invert_involutive :
    Term.Invert (Term.Invert Dir.IN) = Dir.IN ∧
    Term.Invert (Term.Invert Dir.OUT) = Dir.OUT ∧
    Term.Invert Dir.IN = Dir.OUT ∧
    Term.Invert Dir.OUT = Dir.IN ∧
    Term.Invert Dir.NONE = Dir.NONE := by
  refine ⟨rfl, rfl, rfl, rfl, rfl⟩

/-- C10: the boolean-false singleton returned by `bool_false()` stores the
boolean value false under the BOOL discriminant, yet its name is
"bool_true" - the very name of the literal returned by `bool_true()` -
so the two process-wide boolean singletons share a name. -/
theorem C10_bool_false_misnamed :
    bool_false.bool_val_ = false ∧
    bool_false.storage_type_ = StorageType.BOOL ∧
    bool_false.name = "bool_true" ∧
    bool_true.name = bool_false.name ∧
    bool_true.bool_val_ = true :=
  ⟨rfl, rfl, rfl, rfl, rfl⟩

/-- C5: MultiOutputNode AddEdge accepts an edge as an output and returns
true exactly when the edge has a source, that source is this node, and
the edge is not already present in the output set by identity; on
success the edge is appended, and adding the same edge object twice
never creates two output entries. -/
theorem C5_multiOutput_addEdge_spec (self : NodeRef) (outputs : List Edge) (edge : Edge) :
    ((MultiOutputNode.AddEdge self outputs edge).1 = true ↔
      (edge.src = some self ∧ Contains outputs edge = false)) ∧
    ((MultiOutputNode.AddEdge self outputs edge).1 = true →
      (MultiOutputNode.AddEdge self outputs edge).2 = outputs ++ [edge]) ∧
    (MultiOutputNode.AddEdge self
        (MultiOutputNode.AddEdge self outputs edge).2 edge).2 =
      (MultiOutputNode.AddEdge self outputs edge).2 := by
  by_cases hs : edge.src = some self
  · cases hc : Contains outputs edge with
    | true =>
      have h1 := mo_add_dup self outputs edge hs hc
      simp [h1, hs, hc]
    | false =>
      have h1 := mo_add_ok self outputs edge hs hc
      have h2 : Contains (outputs ++ [edge]) edge = true := by
        simp [Contains]
      have h3 := mo_add_dup self (outputs ++ [edge]) edge hs h2
      simp [h1, h3, hs, hc]
  · have h1 := mo_add_wrongSrc self outputs edge hs
    simp [h1, hs]

/-- C5 witness: on its source node 0 with an empty output set, the concrete
edge is accepted, and a repeated AddEdge with the same edge object
leaves the output set as after the first call. -/
theorem C5_multiOutput_addEdge_spec_witness :
    (MultiOutputNode.AddEdge 0 [] edgeC5).1 = true ∧
    (MultiOutputNode.AddEdge 0 (MultiOutputNode.AddEdge 0 [] edgeC5).2 edgeC5).2 =
      (MultiOutputNode.AddEdge 0 [] edgeC5).2 :=
  ⟨(C5_multiOutput_addEdge_spec 0 [] edgeC5).1.mpr (by decide),
    (C5_multiOutput_addEdge_spec 0 [] edgeC5).2.2⟩

/-- C6: whenever AddEdge returns false the edge storage of the node is
unchanged: the output set of a MultiOutputNode is exactly as before, and
a NormalNode keeps both its output set and its held input edge. -/
theorem C6_failed_addEdge_leaves_node_unchanged (self : NodeRef) :
    (∀ (outputs : List Edge) (edge : Edge),
      (MultiOutputNode.AddEdge self outputs edge).1 = false →
      (MultiOutputNode.AddEdge self outputs edge).2 = outputs) ∧
    (∀ (n : NormalNode) (edge : Edge),
      (NormalNode.AddEdge self n edge).1 = false →
      (NormalNode.AddEdge self n edge).2 = n) := by
  refine ⟨fun outputs edge h => mo_add_fail_unchanged self outputs edge h,
    fun n edge h => ?_⟩
  by_cases hmo : (MultiOutputNode.AddEdge self n.outputs edge).1 = true
  · simp [nn_add_out self n edge hmo] at h
  · have hmo2 : (MultiOutputNode.AddEdge self n.outputs edge).1 = false := by
      revert hmo
      cases (MultiOutputNode.AddEdge self n.outputs edge).1 <;> simp
    cases hdst : edge.dst with
    | none => rw [nn_add_noDst self n edge hmo2 hdst]
    | some d =>
      by_cases hd : d = self
      · rw [hd] at hdst
        simp [nn_add_in self n edge hmo2 hdst] at h
      · rw [nn_add_wrongDst self n edge d hmo2 hdst hd]

/-- C6 witness: the concrete edge with neither endpoint is rejected both by
a MultiOutputNode with an empty output set and by a NormalNode already
holding edges, and in both cases the storage is unchanged. -/
theorem C6_failed_addEdge_leaves_node_unchanged_witness :
    (MultiOutputNode.AddEdge 0 [] edgeC6).2 = [] ∧
    (NormalNode.AddEdge 0 nodeC6 edgeC6).2 = nodeC6 :=
  ⟨(C6_failed_addEdge_leaves_node_unchanged 0).1 [] edgeC6 (by decide),
    (C6_failed_addEdge_leaves_node_unchanged 0).2 nodeC6 edgeC6 (by decide)⟩

/-- C2: NormalNode AddEdge first attempts to accept the edge as an output;
only if that fails, and the destination of the edge is this node, it
accepts the edge as the single input, unconditionally replacing any
previously held input edge - and a NormalNode holds at most one inbound
edge at any time. -/
theorem C2_normal_addEdge_policy (self : NodeRef) (n : NormalNode) (edge : Edge) :
    ((MultiOutputNode.AddEdge self n.outputs edge).1 = true →
      NormalNode.AddEdge self n edge =
        (true, { n with outputs := (MultiOutputNode.AddEdge self n.outputs edge).2 })) ∧
    ((MultiOutputNode.AddEdge self n.outputs edge).1 = false → edge.dst = some self →
      NormalNode.AddEdge self n edge = (true, { n with input_ := some edge })) ∧
    (∀ m : NormalNode, (NormalNode.sources m).length ≤ 1) := by
  refine ⟨fun h => nn_add_out self n edge h,
    fun h hdst => nn_add_in self n edge h hdst, fun m => ?_⟩
  cases hm : m.input_ with
  | none => simp [NormalNode.sources, hm]
  | some e => simp [NormalNode.sources, hm]

/-- C2 witness: node 0 already holds the first concrete inbound edge; the
second concrete inbound edge cannot be an output of node 0, its
destination is node 0, and AddEdge replaces the held input with it. -/
theorem C2_normal_addEdge_policy_witness :
    NormalNode.AddEdge 0 nodeC2 edgeC2b = (true, { nodeC2 with input_ := some edgeC2b }) :=
  (C2_normal_addEdge_policy 0 nodeC2 edgeC2b).2.1 (by decide) (by decide)

/-- C1 counterexample: node 0 already holds an accepted inbound edge, yet
AddEdge with a second edge destined for node 0 returns true and
overwrites the held input edge, so the claim that it fails and keeps the
existing inbound edge is false on this concrete input. -/
theorem C1_counterexample :
    (NormalNode.AddEdge 0 nodeC1 edgeC1b).1 = true ∧
    (NormalNode.AddEdge 0 nodeC1 edgeC1b).2.input_ = some edgeC1b ∧
    ¬((NormalNode.AddEdge 0 nodeC1 edgeC1b).1 = false ∧
      (NormalNode.AddEdge 0 nodeC1 edgeC1b).2.input_ = some edgeC1a) := by
  decide

/-- C1 (amended): for every NormalNode that already holds an accepted
inbound edge, calling AddEdge with a second edge whose destination is
that node (and which is not an output of it) succeeds, returning true
and unconditionally overwriting the held inbound edge with the new
one. -/
theorem C1_second_inbound_overwrites (self : NodeRef) (n : NormalNode) (e0 edge : Edge)
    (hin : n.input_ = some e0)
    (hsrc : edge.src ≠ some self) (hdst : edge.dst = some self) :
    NormalNode.AddEdge self n edge = (true, { n with input_ := some edge }) := by
  have hmo : (MultiOutputNode.AddEdge self n.outputs edge).1 = false := by
    rw [mo_add_wrongSrc self n.outputs edge hsrc]
  exact nn_add_in self n edge hmo hdst

/-- C1 witness: the concrete node 0 holding one inbound edge accepts the
second concrete inbound edge, which overwrites the first. -/
theorem C1_second_inbound_overwrites_witness :
    NormalNode.AddEdge 0 nodeC1 edgeC1b = (true, { nodeC1 with input_ := some edgeC1b }) :=
  C1_second_inbound_overwrites 0 nodeC1 edgeC1a edgeC1b (by decide) (by decide) (by decide)

/-- C4: for every Parameter, val returns the source node of the current
inbound edge when an inbound edge exists; otherwise the default literal
when one was configured at construction; otherwise no value - and with
both an inbound edge and a default present, the source of the inbound
edge takes precedence. -/
theorem C4_parameter_val_resolution (p : Parameter) :
    (∀ e : Edge, p.node.input_ = some e → p.val = some e.src) ∧
    (p.node.input_ = none → ∀ d : NodeRef, p.default_value_ = some d →
      p.val = some (some d)) ∧
    (p.node.input_ = none → p.default_value_ = none → p.val = none) ∧
    (∀ (e : Edge) (d : NodeRef), p.node.input_ = some e → p.default_value_ = some d →
      p.val = some e.src) := by
  refine ⟨fun e he => ?_, fun hni d hd => ?_, fun hni hnd => ?_, fun e d he _ => ?_⟩
  · simp [Parameter.val, NormalNode.input, he]
  · simp [Parameter.val, NormalNode.input, hni, hd]
  · simp [Parameter.val, NormalNode.input, hni, hnd]
  · simp [Parameter.val, NormalNode.input, he]

/-- C4 witness: the concrete parameter holds both an inbound edge sourced
at node 5 and a default literal 7; val resolves to node 5, the source of
the inbound edge. -/
theorem C4_parameter_val_resolution_witness :
    Parameter.val paramC4 = some (some 5) :=
  (C4_parameter_val_resolution paramC4).2.2.2
    { id := 21, src := some 5, dst := some 9 } 7 (by decide) (by decide)

end Cerata
